import Mathlib

/-!
Shallow embedding of the weather MCP server (src/weather.py).

Python dictionaries are modelled by structures whose fields are `Option`s:
a `none` field stands for an absent key. Access with a default
(`d.get(k, v)`) becomes `Option.getD`; bare subscript access (`d[k]`),
which raises `KeyError`/`IndexError` in Python, becomes an `Except Unit`
computation. Numeric JSON values are modelled as rationals; their textual
rendering inside messages is abstracted by the canonical `Rat` printer.
The HTTP fetcher is modelled as an oracle function passed to the
orchestrators: a fetch failure is `none`, a parsed JSON body is `some`.
-/

namespace Weather

/-- One entry of the "weather" array of an observation or forecast period:
keys "id", "main" (condition name) and "description". -/
structure CondEntry where
  id : Option Int
  main : Option String
  description : Option String
deriving Repr, DecidableEq

/-- The "main" object of a current-weather observation: keys "temp" and
"humidity". -/
structure MainObj where
  temp : Option ℚ
  humidity : Option ℚ
deriving Repr, DecidableEq

/-- The "wind" object: key "speed". -/
structure WindObj where
  speed : Option ℚ
deriving Repr, DecidableEq

/-- A current-weather response dict: keys "weather", "main", "wind",
"name". -/
structure WeatherData where
  weather : Option (List CondEntry)
  main : Option MainObj
  wind : Option WindObj
  name : Option String
deriving Repr, DecidableEq

/-- Python truthiness of the observation dict: `not weather_data` is true
exactly when no key is present. -/
def WeatherData.isEmptyDict (d : WeatherData) : Bool :=
  d.weather.isNone && d.main.isNone && d.wind.isNone && d.name.isNone

/-- Bool-valued list prefix test, used to model the substring operator. -/
def listIsPrefixOf : List Char → List Char → Bool
  | [], _ => true
  | _ :: _, [] => false
  | a :: as, b :: bs => a == b && listIsPrefixOf as bs

/-- Does the haystack contain the pattern as a contiguous sublist? -/
def listContainsSub (pat : List Char) : List Char → Bool
  | [] => listIsPrefixOf pat []
  | c :: rest => listIsPrefixOf pat (c :: rest) || listContainsSub pat rest

/-- The Python substring operator: does pat occur in s? -/
def strContains (s pat : String) : Bool :=
  listContainsSub pat.data s.data

/-- Python str.lower, on the ASCII alphabet used by this program. -/
def pyLower (s : String) : String :=
  String.mk (s.data.map Char.toLower)

/-- Python str.upper, on the ASCII alphabet used by this program. -/
def pyUpper (s : String) : String :=
  String.mk (s.data.map Char.toUpper)

/-- The dict literal `{}` used as default for a missing weather entry. -/
def emptyCond : CondEntry := ⟨none, none, none⟩

/-- The dict literal `{}` used as default for a missing "main" object. -/
def emptyMain : MainObj := ⟨none, none⟩

/-- `main = weather_data.get("weather", [{}])[0]`, on the non-error path:
the first condition entry, or the empty dict when the key is absent. -/
def firstCond (d : WeatherData) : CondEntry :=
  match d.weather with
  | none => emptyCond
  | some [] => emptyCond
  | some (c :: _) => c

/-- `temp = weather_data.get("main", {})`. -/
def tempObj (d : WeatherData) : MainObj :=
  d.main.getD emptyMain

/-- The temperature-extreme branch of format_alert: with a numeric
temperature present, `> 35` appends "Extreme Heat", elif `< 0` appends
"Freezing Conditions". -/
def tempConditions (current_temp : Option ℚ) : List String :=
  match current_temp with
  | none => []
  | some t =>
    if t > 35 then ["Extreme Heat"]
    else if t < 0 then ["Freezing Conditions"]
    else []

/-- The fixed severe_weather_types table, in insertion order. -/
def severe_weather_types : List (String × String) :=
  [("thunderstorm", "Thunderstorm"),
   ("tornado", "Tornado"),
   ("hurricane", "Hurricane"),
   ("snow", "Heavy Snow")]

/-- The keyword-scan loop of format_alert: a label is appended when its
key occurs in the lowercased condition name or in the lowercased
description. -/
def keywordConditions (mainE : CondEntry) : List String :=
  severe_weather_types.filterMap (fun kv =>
    if strContains (pyLower (mainE.main.getD "")) kv.1
        || strContains (pyLower (mainE.description.getD "")) kv.1
    then some kv.2 else none)

/-- The severe_conditions accumulator after both checks: temperature
labels first (appended first in the source), then keyword labels in
table order. -/
def severeConditions (mainE : CondEntry) (temp : MainObj) : List String :=
  tempConditions temp.temp ++ keywordConditions mainE

/-- Python string interpolation of a possibly absent numeric value:
an absent value prints as "None". -/
def pyOptNum : Option ℚ → String
  | none => "None"
  | some q => toString q

/-- The f-string template returned by format_alert on the alert path. -/
def renderAlert (severe : List String) (d : WeatherData)
    (temp : MainObj) (mainE : CondEntry) : String :=
  "\nSevere Weather Alert\nConditions: " ++ String.intercalate ", " severe
    ++ "\nLocation: " ++ d.name.getD "Unknown"
    ++ "\nTemperature: " ++ pyOptNum temp.temp ++ "°C"
    ++ "\nDescription: " ++ mainE.description.getD "No description available"
    ++ "\nHumidity: " ++ pyOptNum temp.humidity ++ "%"
    ++ "\nWind Speed: " ++ pyOptNum ((d.wind.getD ⟨none⟩).speed) ++ " m/s\n"

/-- format_alert from src/weather.py. The argument is `dict | None` as at
the call sites; `Except.error ()` is the IndexError raised by
`weather_data.get("weather", [{}])[0]` when the "weather" key holds an
empty list (only reachable on a truthy dict); `Except.ok none` is the
Python `None` result. -/
def format_alert (weather_data : Option WeatherData) :
    Except Unit (Option String) :=
  match weather_data with
  | none => Except.ok none
  | some d =>
    if d.isEmptyDict then Except.ok none
    else if d.weather = some ([] : List CondEntry) then Except.error ()
    else
      let mainE := firstCond d
      let temp := tempObj d
      let _weather_id := match mainE.id with
        | some n => toString n
        | none => ""
      let severe := severeConditions mainE temp
      if severe.isEmpty then Except.ok none
      else Except.ok (some (renderAlert severe d temp mainE))

/-- The alert produced for one fetch result, when the classifier does not
raise: the payload of `format_alert`, an error collapsing to no alert.
Used to state what the orchestrator accumulates. -/
def alertOf (od : Option WeatherData) : Option String :=
  match format_alert od with
  | Except.ok r => r
  | Except.error _ => none

/-- The static state_cities table of get_alerts, in insertion order. -/
def state_cities : List (String × List String) :=
  [("CA", ["Los Angeles", "San Francisco", "Sacramento"]),
   ("NY", ["New York", "Buffalo", "Albany"])]

/-- `state_cities.get(state.upper())`: dict lookup keyed on the uppercased
region code. -/
def lookupState (state : String) : Option (List String) :=
  (state_cities.find? (fun kv => kv.1 == (pyUpper state))).map (fun kv => kv.2)

/-- The per-city loop of get_alerts: fetch each city in order, run the
classifier, append the message when one is produced. A classifier
exception propagates. -/
def collectAlerts (fetch : String → Option WeatherData) :
    List String → Except Unit (List String)
  | [] => Except.ok []
  | c :: cs =>
    match format_alert (fetch c) with
    | Except.error e => Except.error e
    | Except.ok none => collectAlerts fetch cs
    | Except.ok (some a) =>
      match collectAlerts fetch cs with
      | Except.error e => Except.error e
      | Except.ok rest => Except.ok (a :: rest)

/-- get_alerts from src/weather.py, with the HTTP layer abstracted as the
fetch oracle mapping a city name to the parsed response (or `none` on any
request failure). -/
def get_alerts (fetch : String → Option WeatherData) (state : String) :
    Except Unit String :=
  let cities := (lookupState state).getD []
  if cities.isEmpty then
    Except.ok ("State " ++ state ++
      " not supported yet. Please add cities to the state_cities mapping.")
  else
    match collectAlerts fetch cities with
    | Except.error e => Except.error e
    | Except.ok alerts =>
      if alerts.isEmpty then
        Except.ok ("No severe weather alerts for " ++ state)
      else
        Except.ok (String.intercalate "\n---\n" alerts)

/-- The "main" object of one forecast period: keys "temp", "feels_like",
"humidity". -/
structure FMain where
  temp : Option ℚ
  feels_like : Option ℚ
  humidity : Option ℚ
deriving Repr, DecidableEq

/-- One entry of the forecast "list": keys "dt_txt", "main", "weather",
"wind". -/
structure FPeriod where
  dt_txt : Option String
  main : Option FMain
  weather : Option (List CondEntry)
  wind : Option WindObj
deriving Repr, DecidableEq

/-- A forecast response dict: the only key read is "list". -/
structure ForecastData where
  list : Option (List FPeriod)
deriving Repr, DecidableEq

/-- Bare subscript access `d[k]`: raises KeyError when the key is absent. -/
def getKey {α : Type} : Option α → Except Unit α
  | none => Except.error ()
  | some a => Except.ok a

/-- The body of the per-period loop of get_forecast: every field is read
with bare subscripts, so any absent field (or an empty "weather" array)
raises. -/
def renderPeriod (period : FPeriod) : Except Unit String := do
  let main ← getKey period.main
  let weatherList ← getKey period.weather
  let weather ← match weatherList with
    | [] => Except.error ()
    | w :: _ => Except.ok w
  let dt ← getKey period.dt_txt
  let t ← getKey main.temp
  let fl ← getKey main.feels_like
  let wmain ← getKey weather.main
  let wdesc ← getKey weather.description
  let hum ← getKey main.humidity
  let wind ← getKey period.wind
  let speed ← getKey wind.speed
  Except.ok ("\nTime: " ++ dt
    ++ "\nTemperature: " ++ toString t ++ "°C"
    ++ "\nFeels Like: " ++ toString fl ++ "°C"
    ++ "\nConditions: " ++ wmain ++ " - " ++ wdesc
    ++ "\nHumidity: " ++ toString hum ++ "%"
    ++ "\nWind: " ++ toString speed ++ " m/s\n")

/-- The `for period in ...` loop of get_forecast: render each period and
append to the forecasts accumulator; an exception in the body propagates. -/
def renderAll : List FPeriod → Except Unit (List String)
  | [] => Except.ok []
  | p :: ps =>
    match renderPeriod p with
    | Except.error e => Except.error e
    | Except.ok s =>
      match renderAll ps with
      | Except.error e => Except.error e
      | Except.ok rest => Except.ok (s :: rest)

/-- get_forecast from src/weather.py, starting after the fetch: the
argument is the fetch result. `not data or "list" not in data` collapses
to the fixed message; otherwise the first five periods (`data["list"][:5]`)
are rendered and joined. -/
def get_forecast (data : Option ForecastData) : Except Unit String :=
  match data with
  | none => Except.ok "Unable to fetch forecast data for this location."
  | some d =>
    match d.list with
    | none => Except.ok "Unable to fetch forecast data for this location."
    | some periods =>
      match renderAll (periods.take 5) with
      | Except.error e => Except.error e
      | Except.ok forecasts => Except.ok (String.intercalate "\n---\n" forecasts)

/-- An observation equal to d except for the "id" field of its first
weather entry (when one exists). -/
def setFirstId (d : WeatherData) (i : Option Int) : WeatherData :=
  { d with weather := d.weather.map (fun l =>
      match l with
      | [] => ([] : List CondEntry)
      | c :: cs => { c with id := i } :: cs) }

/-! Helper lemmas about the classifier. -/

theorem tempConditions_labels (ct : Option ℚ) :
    ∀ s ∈ tempConditions ct, s = "Extreme Heat" ∨ s = "Freezing Conditions" := by
  intro s hs
  cases ct with
  | none => simp [tempConditions] at hs
  | some t =>
    simp only [tempConditions] at hs
    split_ifs at hs <;> simp_all

theorem mem_keywordConditions (s : String) (mainE : CondEntry) :
    s ∈ keywordConditions mainE ↔
      ∃ kv ∈ severe_weather_types, kv.2 = s ∧
        (strContains (pyLower (mainE.main.getD "")) kv.1
          || strContains (pyLower (mainE.description.getD "")) kv.1) = true := by
  simp only [keywordConditions, List.mem_filterMap]
  constructor
  · rintro ⟨kv, hkv, hf⟩
    refine ⟨kv, hkv, ?_⟩
    split at hf
    · exact ⟨Option.some.inj hf, by assumption⟩
    · cases hf
  · rintro ⟨kv, hkv, hval, hc⟩
    exact ⟨kv, hkv, by rw [if_pos hc, hval]⟩

theorem table_val_inj (kv kw : String × String)
    (h1 : kv ∈ severe_weather_types) (h2 : kw ∈ severe_weather_types)
    (hv : kv.2 = kw.2) : kv = kw := by
  fin_cases h1 <;> fin_cases h2 <;> simp_all

theorem table_val_not_temp (kv : String × String)
    (h : kv ∈ severe_weather_types) (ct : Option ℚ) :
    kv.2 ∉ tempConditions ct := by
  intro hmem
  rcases tempConditions_labels ct _ hmem with h1 | h1 <;> fin_cases h <;> simp_all

theorem temp_label_not_keyword (mainE : CondEntry) (s : String)
    (hs : s = "Extreme Heat" ∨ s = "Freezing Conditions") :
    s ∉ keywordConditions mainE := by
  intro h
  rcases (mem_keywordConditions s mainE).1 h with ⟨kv, hkv, hval, _⟩
  fin_cases hkv <;> rcases hs with h1 | h1 <;> simp_all

/-- C1: with a numeric temperature t present, the severe-condition set of
format_alert contains "Extreme Heat" iff t > 35 and "Freezing Conditions"
iff t < 0 (so neither for 0 ≤ t ≤ 35), whatever the other fields hold,
and the two temperature labels never appear together. -/
theorem C1_temperature_thresholds (t : ℚ) (mainE : CondEntry) (hum : Option ℚ) :
    ("Extreme Heat" ∈ severeConditions mainE ⟨some t, hum⟩ ↔ t > 35) ∧
    ("Freezing Conditions" ∈ severeConditions mainE ⟨some t, hum⟩ ↔ t < 0) ∧
    ¬("Extreme Heat" ∈ severeConditions mainE ⟨some t, hum⟩ ∧
      "Freezing Conditions" ∈ severeConditions mainE ⟨some t, hum⟩) := by
  have hA := temp_label_not_keyword mainE "Extreme Heat" (Or.inl rfl)
  have hB := temp_label_not_keyword mainE "Freezing Conditions" (Or.inr rfl)
  have hheat : "Extreme Heat" ∈ severeConditions mainE ⟨some t, hum⟩ ↔ t > 35 := by
    simp only [severeConditions, List.mem_append]
    constructor
    · rintro (h | h)
      · simp only [tempConditions] at h
        split_ifs at h with h1 h2 <;> simp_all
      · exact absurd h hA
    · intro ht
      left
      simp [tempConditions, if_pos ht]
  have hcold : "Freezing Conditions" ∈ severeConditions mainE ⟨some t, hum⟩ ↔ t < 0 := by
    simp only [severeConditions, List.mem_append]
    constructor
    · rintro (h | h)
      · simp only [tempConditions] at h
        split_ifs at h with h1 h2 <;> simp_all
      · exact absurd h hB
    · intro ht
      have h1 : ¬ t > 35 := by linarith
      left
      simp [tempConditions, if_neg h1, if_pos ht]
  refine ⟨hheat, hcold, ?_⟩
  rintro ⟨h1, h2⟩
  have := hheat.1 h1
  have := hcold.1 h2
  linarith

/-- C2: a keyword label of the severe_weather_types table is in the
severe-condition set iff its key occurs, case-insensitively, in the
condition name or in the description; this does not depend on the
temperature object, and several keyword labels can hold at once. -/
theorem C2_keyword_scan (mainE : CondEntry) (temp : MainObj) (key label : String)
    (hkv : (key, label) ∈ severe_weather_types) :
    label ∈ severeConditions mainE temp ↔
      (strContains (pyLower (mainE.main.getD "")) key
        || strContains (pyLower (mainE.description.getD "")) key) = true := by
  simp only [severeConditions, List.mem_append]
  constructor
  · rintro (h | h)
    · exact absurd h (table_val_not_temp (key, label) hkv temp.temp)
    · rcases (mem_keywordConditions label mainE).1 h with ⟨kv, hkv2, hval, hc⟩
      have hv : kv = (key, label) := table_val_inj kv (key, label) hkv2 hkv hval
      rw [hv] at hc
      exact hc
  · intro hc
    exact Or.inr ((mem_keywordConditions label mainE).2 ⟨(key, label), hkv, rfl, hc⟩)

/-- Witness for C2 at a concrete observation: with condition name
"Tornado and Snow" both the Tornado and the Heavy Snow labels are added
to the same severe-condition set. -/
theorem C2_keyword_scan_witness :
    "Tornado" ∈ severeConditions ⟨none, some "Tornado and Snow", none⟩ ⟨some 20, none⟩ ∧
    "Heavy Snow" ∈ severeConditions ⟨none, some "Tornado and Snow", none⟩ ⟨some 20, none⟩ :=
  ⟨(C2_keyword_scan ⟨none, some "Tornado and Snow", none⟩ ⟨some 20, none⟩
      "tornado" "Tornado" (by decide)).2 (by decide),
   (C2_keyword_scan ⟨none, some "Tornado and Snow", none⟩ ⟨some 20, none⟩
      "snow" "Heavy Snow" (by decide)).2 (by decide)⟩

/-- Witness for C1 at t = 36. -/
theorem C1_temperature_thresholds_witness :
    ("Extreme Heat" ∈ severeConditions emptyCond ⟨some 36, none⟩ ↔ (36 : ℚ) > 35) ∧
    ("Freezing Conditions" ∈ severeConditions emptyCond ⟨some 36, none⟩ ↔ (36 : ℚ) < 0) ∧
    ¬("Extreme Heat" ∈ severeConditions emptyCond ⟨some 36, none⟩ ∧
      "Freezing Conditions" ∈ severeConditions emptyCond ⟨some 36, none⟩) :=
  C1_temperature_thresholds 36 emptyCond none

theorem severe_of_emptyDict (d : WeatherData) (h : d.isEmptyDict = true) :
    severeConditions (firstCond d) (tempObj d) = [] := by
  rcases d with ⟨w, m, wi, n⟩
  simp only [WeatherData.isEmptyDict, Bool.and_eq_true,
    Option.isNone_iff_eq_none] at h
  obtain ⟨⟨⟨hw, hm⟩, hwi⟩, hn⟩ := h
  subst hw
  subst hm
  subst hwi
  subst hn
  decide

/-- C3 as frozen is refuted by the observation whose "weather" key holds
an empty list: it has no numeric temperature and no matching keyword, yet
format_alert raises an IndexError instead of returning the absent
result. -/
theorem C3_counterexample :
    format_alert (some ⟨some [], none, none, none⟩) = Except.error () ∧
    format_alert (some ⟨some [], none, none, none⟩) ≠ Except.ok none := by
  refine ⟨rfl, ?_⟩
  intro h
  exact Except.noConfusion h

/-- C3 amended: provided the "weather" key, when present, holds a
non-empty list, format_alert returns the absent result exactly when the
input is empty/absent or the severe-condition set is empty (so in
particular whenever no numeric temperature is present and no keyword
matches), and otherwise returns the rendered message string. -/
theorem C3_absent_iff (od : Option WeatherData)
    (hsafe : ∀ o, od = some o → o.weather ≠ some []) :
    (format_alert od = Except.ok none ↔
      (od = none ∨ ∃ d, od = some d ∧
        severeConditions (firstCond d) (tempObj d) = [])) ∧
    (∀ d, od = some d → severeConditions (firstCond d) (tempObj d) ≠ [] →
      format_alert od = Except.ok (some (renderAlert
        (severeConditions (firstCond d) (tempObj d)) d (tempObj d) (firstCond d)))) := by
  cases od with
  | none =>
    refine ⟨by simp [format_alert], ?_⟩
    intro d h
    cases h
  | some d =>
    have hw : ¬ (d.weather = some []) := hsafe d rfl
    constructor
    · by_cases he : d.isEmptyDict = true
      · have hs := severe_of_emptyDict d he
        simp [format_alert, he, hs]
      · by_cases hsev : severeConditions (firstCond d) (tempObj d) = []
        · simp [format_alert, he, hw, hsev]
        · simp [format_alert, he, hw, hsev]
    · intro d0 h0 hsev
      cases h0
      by_cases he : d.isEmptyDict = true
      · exact absurd (severe_of_emptyDict d he) hsev
      · simp [format_alert, he, hw, hsev]

/-- Witness for C3 amended: a truthy observation with no temperature and
no keyword yields the absent result. -/
theorem C3_absent_iff_witness :
    format_alert (some ⟨none, none, none, some "Paris"⟩) = Except.ok none :=
  (C3_absent_iff (some ⟨none, none, none, some "Paris"⟩)
      (fun o ho => by cases ho; simp)).1.mpr
    (Or.inr ⟨⟨none, none, none, some "Paris"⟩, rfl, by decide⟩)

theorem format_alert_error_of_empty (d : WeatherData) (h : d.weather = some []) :
    format_alert (some d) = Except.error () := by
  have he : d.isEmptyDict = false := by
    rcases d with ⟨w, m, wi, n⟩
    simp_all [WeatherData.isEmptyDict]
  simp [format_alert, he, h]

theorem format_alert_ok_of_ne (d : WeatherData) (h : ¬ d.weather = some []) :
    ∃ r, format_alert (some d) = Except.ok r := by
  by_cases he : d.isEmptyDict = true
  · exact ⟨none, by simp [format_alert, he]⟩
  · by_cases hsev : (severeConditions (firstCond d) (tempObj d)).isEmpty = true
    · exact ⟨none, by simp [format_alert, he, h, hsev]⟩
    · exact ⟨some (renderAlert (severeConditions (firstCond d) (tempObj d))
          d (tempObj d) (firstCond d)),
        by simp [format_alert, he, h, hsev]⟩

/-- C9: an observation whose "weather" key maps to the empty list defeats
the falsy-input guard and makes format_alert raise an IndexError; the
first-entry access is safe exactly when the key, if present, holds a
non-empty list. -/
theorem C9_empty_weather_crash (d : WeatherData) :
    (d.weather = some [] → format_alert (some d) = Except.error ()) ∧
    (d.weather ≠ some [] → ∃ r, format_alert (some d) = Except.ok r) :=
  ⟨format_alert_error_of_empty d, format_alert_ok_of_ne d⟩

/-- Witness for C9: the crash at a concrete observation. -/
theorem C9_empty_weather_crash_witness :
    format_alert (some ⟨some [], none, none, some "Los Angeles"⟩) = Except.error () :=
  (C9_empty_weather_crash ⟨some [], none, none, some "Los Angeles"⟩).1 rfl

/-- C10: the numeric condition code (the "id" of the first weather entry)
is read into a string but never used, so two observations differing only
in it produce identical format_alert results. -/
theorem C10_condition_id_irrelevant (d : WeatherData) (i j : Option Int) :
    format_alert (some (setFirstId d i)) = format_alert (some (setFirstId d j)) := by
  rcases d with ⟨w, m, wi, n⟩
  cases w with
  | none => rfl
  | some l =>
    cases l with
    | nil => rfl
    | cons c cs => rfl

/-! The alerts orchestrator. -/

/-- C5: an unsupported region code produces the fixed not-supported
message naming the code, and the result does not depend on the fetch
oracle (no network call can influence it). -/
theorem C5_unknown_region (state : String) (h : lookupState state = none)
    (fetch fetch2 : String → Option WeatherData) :
    get_alerts fetch state = Except.ok ("State " ++ state ++
      " not supported yet. Please add cities to the state_cities mapping.") ∧
    get_alerts fetch state = get_alerts fetch2 state := by
  constructor <;> simp [get_alerts, h]

/-- Witness for C5 at region code "XX", under two different fetch
oracles. -/
theorem C5_unknown_region_witness :
    get_alerts (fun _ => none) "XX" = Except.ok ("State " ++ "XX" ++
      " not supported yet. Please add cities to the state_cities mapping.") ∧
    get_alerts (fun _ => none) "XX" =
      get_alerts (fun _ => some ⟨none, none, none, some "x"⟩) "XX" :=
  C5_unknown_region "XX" (by decide) (fun _ => none)
    (fun _ => some ⟨none, none, none, some "x"⟩)

theorem format_alert_eq_alertOf (od : Option WeatherData)
    (h : ∀ o, od = some o → o.weather ≠ some []) :
    format_alert od = Except.ok (alertOf od) := by
  cases od with
  | none => rfl
  | some d =>
    obtain ⟨r, hr⟩ := format_alert_ok_of_ne d (h d rfl)
    rw [hr]
    simp [alertOf, hr]

theorem collectAlerts_eq (fetch : String → Option WeatherData) (cs : List String)
    (hsafe : ∀ c o, fetch c = some o → o.weather ≠ some []) :
    collectAlerts fetch cs =
      Except.ok (cs.filterMap (fun c => alertOf (fetch c))) := by
  induction cs with
  | nil => rfl
  | cons c cs ih =>
    have hc := format_alert_eq_alertOf (fetch c) (fun o ho => hsafe c o ho)
    cases ha : alertOf (fetch c) with
    | none =>
      rw [ha] at hc
      simp [collectAlerts, hc, ih, List.filterMap_cons, ha]
    | some a =>
      rw [ha] at hc
      simp [collectAlerts, hc, ih, List.filterMap_cons, ha]

/-- C6 as frozen is refuted when a fetch returns an observation whose
"weather" key holds the empty list: the classifier's IndexError
propagates out of the per-city loop and get_alerts raises instead of
returning either message. -/
theorem C6_counterexample :
    get_alerts (fun _ => some ⟨some [], none, none, none⟩) "CA" =
      Except.error () := rfl

/-- C6 amended: provided no fetched observation maps its "weather" key to
an empty list, for a supported region the cities are processed in table
order; a fetch failure contributes no alert and does not abort the loop;
an empty accumulator yields the no-severe-weather message naming the
region, and otherwise the alerts are joined, in city order, by the
separator. -/
theorem C6_supported_region (state : String) (cities : List String)
    (h : lookupState state = some cities) (hne : cities ≠ [])
    (fetch : String → Option WeatherData)
    (hsafe : ∀ c o, fetch c = some o → o.weather ≠ some []) :
    format_alert none = Except.ok none ∧
    get_alerts fetch state = Except.ok
      (if (cities.filterMap (fun c => alertOf (fetch c))).isEmpty
        then "No severe weather alerts for " ++ state
        else String.intercalate "\n---\n"
          (cities.filterMap (fun c => alertOf (fetch c)))) := by
  refine ⟨rfl, ?_⟩
  have hcol := collectAlerts_eq fetch cities hsafe
  have hCE : cities.isEmpty = false := by
    cases cities with
    | nil => exact absurd rfl hne
    | cons c cs => rfl
  simp [get_alerts, h, hCE, hcol]
  split <;> rfl

/-- Witness for C6: region "CA" with every fetch failing yields the
no-severe-weather message. -/
theorem C6_supported_region_witness :
    get_alerts (fun _ => none) "CA" =
      Except.ok "No severe weather alerts for CA" := by
  have h := (C6_supported_region "CA"
    ["Los Angeles", "San Francisco", "Sacramento"] (by decide) (by decide)
    (fun _ => none) (fun c o ho => nomatch ho)).2
  simpa [alertOf, format_alert] using h

/-! The forecast orchestrator. -/

theorem renderAll_ok (ps : List FPeriod) (ys : List String)
    (h : renderAll ps = Except.ok ys) :
    ys.length = ps.length ∧
      ∀ i (h1 : i < ps.length) (h2 : i < ys.length),
        renderPeriod (ps.get ⟨i, h1⟩) = Except.ok (ys.get ⟨i, h2⟩) := by
  induction ps generalizing ys with
  | nil =>
    obtain rfl : ys = [] := (Except.ok.inj h).symm
    exact ⟨rfl, fun i h1 h2 => absurd h1 (Nat.not_lt_zero i)⟩
  | cons p ps ih =>
    cases hp : renderPeriod p with
    | error e =>
      simp only [renderAll, hp] at h
      exact Except.noConfusion h
    | ok s =>
      cases hr : renderAll ps with
      | error e =>
        simp only [renderAll, hp, hr] at h
        exact Except.noConfusion h
      | ok rest =>
        simp only [renderAll, hp, hr] at h
        obtain rfl : ys = s :: rest := (Except.ok.inj h).symm
        obtain ⟨hlen, hidx⟩ := ih rest hr
        refine ⟨by simp [hlen], ?_⟩
        intro i h1 h2
        cases i with
        | zero => simpa using hp
        | succ k =>
          have hk := hidx k (by simpa using h1) (by simpa using h2)
          simpa using hk

theorem renderAll_ex (ps : List FPeriod)
    (h : ∀ p ∈ ps, ∃ s, renderPeriod p = Except.ok s) :
    ∃ ys, renderAll ps = Except.ok ys := by
  induction ps with
  | nil => exact ⟨[], rfl⟩
  | cons p ps ih =>
    obtain ⟨s, hs⟩ := h p (List.mem_cons_self p ps)
    obtain ⟨ys, hys⟩ := ih (fun q hq => h q (List.mem_cons_of_mem p hq))
    exact ⟨s :: ys, by simp [renderAll, hs, hys]⟩

/-- C7 as frozen is refuted by a response that does contain the expected
period list but whose single period lacks the "main" key: get_forecast
raises a KeyError instead of rendering min(5, 1) = 1 period. -/
theorem C7_counterexample :
    get_forecast (some ⟨some [⟨some "2025-01-12 12:00:00", none, none, none⟩]⟩) =
      Except.error () := rfl

/-- C7 amended: when the fetched forecast holds the expected period list
and each of the first five periods carries the fields the template reads
(so that it renders), get_forecast renders exactly min(5, available)
periods, in their original order, joined by the separator line; a period
missing a field makes it raise instead. -/
theorem C7_first_five (data : ForecastData) (periods : List FPeriod)
    (h : data.list = some periods)
    (hok : ∀ p ∈ periods.take 5, ∃ s, renderPeriod p = Except.ok s) :
    ∃ rendered : List String,
      renderAll (periods.take 5) = Except.ok rendered ∧
      get_forecast (some data) =
        Except.ok (String.intercalate "\n---\n" rendered) ∧
      rendered.length = min 5 periods.length ∧
      ∀ i (h1 : i < periods.length) (h2 : i < rendered.length),
        renderPeriod (periods.get ⟨i, h1⟩) = Except.ok (rendered.get ⟨i, h2⟩) := by
  obtain ⟨ys, hys⟩ := renderAll_ex (periods.take 5) hok
  obtain ⟨hlen, hidx⟩ := renderAll_ok (periods.take 5) ys hys
  refine ⟨ys, hys, ?_, ?_, ?_⟩
  · simp [get_forecast, h, hys]
  · rw [hlen, List.length_take]
  · intro i h1 h2
    have h3 : i < (periods.take 5).length := by rw [hlen] at h2; exact h2
    have hi := hidx i h3 h2
    have ht : (periods.take 5).get ⟨i, h3⟩ = periods.get ⟨i, h1⟩ := by
      simp [List.getElem_take]
    rw [ht] at hi
    exact hi

/-- Witness for C7: a single fully-populated period renders as one
period, min 5 1 = 1. -/
theorem C7_first_five_witness :
    ∃ rendered : List String,
      renderAll (([⟨some "t0", some ⟨some 20, some 21, some 50⟩,
          some [⟨none, some "Clear", some "clear sky"⟩],
          some ⟨some 3⟩⟩] : List FPeriod).take 5) = Except.ok rendered ∧
      get_forecast (some ⟨some [⟨some "t0", some ⟨some 20, some 21, some 50⟩,
          some [⟨none, some "Clear", some "clear sky"⟩], some ⟨some 3⟩⟩]⟩) =
        Except.ok (String.intercalate "\n---\n" rendered) ∧
      rendered.length = min 5 ([⟨some "t0", some ⟨some 20, some 21, some 50⟩,
          some [⟨none, some "Clear", some "clear sky"⟩],
          some ⟨some 3⟩⟩] : List FPeriod).length ∧
      ∀ i (h1 : i < ([⟨some "t0", some ⟨some 20, some 21, some 50⟩,
            some [⟨none, some "Clear", some "clear sky"⟩],
            some ⟨some 3⟩⟩] : List FPeriod).length) (h2 : i < rendered.length),
        renderPeriod (([⟨some "t0", some ⟨some 20, some 21, some 50⟩,
            some [⟨none, some "Clear", some "clear sky"⟩],
            some ⟨some 3⟩⟩] : List FPeriod).get ⟨i, h1⟩) =
          Except.ok (rendered.get ⟨i, h2⟩) :=
  C7_first_five ⟨some [⟨some "t0", some ⟨some 20, some 21, some 50⟩,
      some [⟨none, some "Clear", some "clear sky"⟩], some ⟨some 3⟩⟩]⟩
    [⟨some "t0", some ⟨some 20, some 21, some 50⟩,
      some [⟨none, some "Clear", some "clear sky"⟩], some ⟨some 3⟩⟩] rfl
    (by intro p hp
        simp at hp
        subst hp
        exact ⟨_, rfl⟩)

/-- C4 counterexample: a forecast response that does contain the expected
top-level list but whose single period has no fields makes get_forecast
raise a KeyError instead of returning a string. -/
theorem C4_counterexample :
    get_forecast (some ⟨some [⟨none, none, none, none⟩]⟩) = Except.error () :=
  rfl

/-- C4 amended: per-field defaults exist only in the alert formatter; in
get_forecast every failure of the fetch or of the top-level structure
still terminates in a returned string, and a response with the expected
list returns a string provided each of the first five periods carries all
the fields the template reads (otherwise a KeyError propagates). -/
theorem C4_fields_required (data : ForecastData) (periods : List FPeriod)
    (h : data.list = some periods)
    (hok : ∀ p ∈ periods.take 5, ∃ s, renderPeriod p = Except.ok s) :
    ∃ s, get_forecast (some data) = Except.ok s := by
  obtain ⟨ys, hys⟩ := renderAll_ex (periods.take 5) hok
  exact ⟨String.intercalate "\n---\n" ys, by simp [get_forecast, h, hys]⟩

/-- Witness for C4 amended: a fully-populated single period yields a
returned string. -/
theorem C4_fields_required_witness :
    ∃ s, get_forecast (some ⟨some [⟨some "t1", some ⟨some 10, some 9, some 40⟩,
        some [⟨none, some "Rain", some "light rain"⟩], some ⟨some 5⟩⟩]⟩) =
      Except.ok s :=
  C4_fields_required ⟨some [⟨some "t1", some ⟨some 10, some 9, some 40⟩,
      some [⟨none, some "Rain", some "light rain"⟩], some ⟨some 5⟩⟩]⟩
    [⟨some "t1", some ⟨some 10, some 9, some 40⟩,
      some [⟨none, some "Rain", some "light rain"⟩], some ⟨some 5⟩⟩] rfl
    (by intro p hp
        simp at hp
        subst hp
        exact ⟨_, rfl⟩)

/-- C8: a failed fetch, or a response without the expected "list" key,
makes get_forecast return exactly the fixed message. -/
theorem C8_unable_message (data : Option ForecastData)
    (h : data = none ∨ ∃ d, data = some d ∧ d.list = none) :
    get_forecast data =
      Except.ok "Unable to fetch forecast data for this location." := by
  rcases h with rfl | ⟨d, rfl, hl⟩
  · rfl
  · simp [get_forecast, hl]

/-- Witness for C8: the failed fetch (for example an HTTP 500) gives the
fixed message. -/
theorem C8_unable_message_witness :
    get_forecast none =
      Except.ok "Unable to fetch forecast data for this location." :=
  C8_unable_message none (Or.inl rfl)

end Weather
